import Mathlib

/-!
# Verification of `development/installer-local.py`

A shallow embedding of the provisioning workflow implemented by
`installer-local.py`.  Pure logic (JSON reconciliation, command lists,
branching on filesystem state) is translated into Lean functions; the
effectful parts (filesystem, subprocesses, environment) are passed in as
explicit oracles (`String → Bool` for `os.path.exists`, a
`List String → Bool` outcome oracle for `subprocess.run` exit status,
`String → Option Json` for reading a JSON file where `none` models an
exception during open / `json.load`).  Each modelled function returns,
besides the Python return value, a trace of the externally visible
effects (which subprocesses were attempted, which file was written).
-/

namespace Installer

/-- JSON values, as produced by Python's `json.load`.  Numbers are
modelled as integers (the configuration fields at issue are integral). -/
inductive JValue where
  | null : JValue
  | bool : Bool → JValue
  | num : Int → JValue
  | str : String → JValue
  | arr : List JValue → JValue
  | obj : List (String × JValue) → JValue

/-- A JSON object at the top level of a site config file: an ordered
association list, as a Python `dict` (insertion ordered, unique keys). -/
abbrev JObject := List (String × JValue)

/-- Lookup of a key in a JSON object: Python `dict.get`, `none` when the
key is absent. -/
def getField : JObject → String → Option JValue
  | [], _ => none
  | (k', v) :: rest, k => if k' = k then some v else getField rest k

/-- Whether a key is present: Python `k in dict`. -/
def hasField : JObject → String → Bool
  | [], _ => false
  | (k', _) :: rest, k => if k' = k then true else hasField rest k

/-- Assignment `d[k] = v` on a Python dict: an existing key keeps its
position and gets the new value; a new key is appended at the end. -/
def setField (o : JObject) (k : String) (v : JValue) : JObject :=
  if hasField o k then o.map (fun p => if p.1 = k then (k, v) else p)
  else o ++ [(k, v)]

theorem getField_map_update_self (o : JObject) (k : String) (v : JValue)
    (h : hasField o k = true) :
    getField (o.map (fun p => if p.1 = k then (k, v) else p)) k = some v := by
  induction o with
  | nil => simp [hasField] at h
  | cons p rest ih =>
    obtain ⟨a, b⟩ := p
    by_cases hp : a = k
    · subst hp
      simp only [List.map_cons]
      simp [getField]
    · simp only [List.map_cons]
      simp only [hp, if_false]
      simp only [getField, hp, if_false]
      exact ih (by simpa [hasField, hp] using h)

theorem getField_append_single_self (o : JObject) (k : String) (v : JValue)
    (h : hasField o k = false) :
    getField (o ++ [(k, v)]) k = some v := by
  induction o with
  | nil => simp [getField]
  | cons p rest ih =>
    obtain ⟨a, b⟩ := p
    by_cases hp : a = k
    · simp [hasField, hp] at h
    · simp only [List.cons_append, getField, hp, if_false]
      exact ih (by simpa [hasField, hp] using h)

theorem getField_setField_self (o : JObject) (k : String) (v : JValue) :
    getField (setField o k v) k = some v := by
  unfold setField
  split
  · exact getField_map_update_self o k v (by assumption)
  · rename_i h
    exact getField_append_single_self o k v (by simpa using h)

theorem getField_map_update_ne (o : JObject) (k k' : String) (v : JValue)
    (h : k ≠ k') :
    getField (o.map (fun p => if p.1 = k' then (k', v) else p)) k = getField o k := by
  induction o with
  | nil => simp [getField]
  | cons p rest ih =>
    obtain ⟨a, b⟩ := p
    by_cases hp : a = k'
    · subst hp
      simp only [List.map_cons, if_pos rfl]
      simp only [getField, Ne.symm h, if_false, ih]
    · simp only [List.map_cons]
      simp only [hp, if_false]
      by_cases hk : a = k
      · simp [getField, hk]
      · simp only [getField, hk, if_false, ih]

theorem getField_append_single_ne (o : JObject) (k k' : String) (v : JValue)
    (h : k ≠ k') :
    getField (o ++ [(k', v)]) k = getField o k := by
  induction o with
  | nil => simp [getField, Ne.symm h]
  | cons p rest ih =>
    obtain ⟨a, b⟩ := p
    by_cases hk : a = k
    · simp [getField, hk]
    · simp only [List.cons_append, getField, hk, if_false]
      exact ih

theorem getField_setField_ne (o : JObject) (k k' : String) (v : JValue)
    (h : k ≠ k') : getField (setField o k' v) k = getField o k := by
  unfold setField
  split
  · exact getField_map_update_ne o k k' v h
  · exact getField_append_single_ne o k k' v h

/-- The command-line arguments record produced by `get_args_parser` in
`installer-local.py` (fields in declaration order of the parser). -/
structure Args where
  apps_json : String
  bench_name : String
  site_name : String
  frappe_repo : String
  frappe_branch : String
  admin_password : String
  db_type : String
  recreate_site : Bool

/-- The parser's defaults (`installer-local.py`, `get_args_parser`). -/
def defaultArgs : Args :=
  ⟨"apps-example.json", "frappe-bench", "development.localhost",
   "https://github.com/karlorz/frappe", "develop-next", "admin", "mariadb", false⟩

/-- `args` with a different `site_name` (for frame statements). -/
def setSiteName (a : Args) (s : String) : Args :=
  ⟨a.apps_json, a.bench_name, s, a.frappe_repo, a.frappe_branch,
   a.admin_password, a.db_type, a.recreate_site⟩

/-- `args` with a different `db_type` (for frame statements). -/
def setDbType (a : Args) (d : String) : Args :=
  ⟨a.apps_json, a.bench_name, a.site_name, a.frappe_repo, a.frappe_branch,
   a.admin_password, d, a.recreate_site⟩

/-- The fixed `bench set-config -g` command list chosen by
`configure_bench` (lines 296-316): eight commands on the mariadb branch,
seven on the postgresql branch. -/
def config_commands (db_type : String) : List (List String) :=
  if db_type = "mariadb" then
    [["bench", "set-config", "-g", "db_host", "localhost"],
     ["bench", "set-config", "-g", "db_port", "3306"],
     ["bench", "set-config", "-g", "db_socket", ""],
     ["bench", "set-config", "-g", "db_type", "mariadb"],
     ["bench", "set-config", "-g", "redis_cache", "redis://localhost:6379"],
     ["bench", "set-config", "-g", "redis_queue", "redis://localhost:6380"],
     ["bench", "set-config", "-g", "redis_socketio", "redis://localhost:6380"],
     ["bench", "set-config", "-g", "developer_mode", "1"]]
  else
    [["bench", "set-config", "-g", "db_host", "localhost"],
     ["bench", "set-config", "-g", "db_port", "5432"],
     ["bench", "set-config", "-g", "db_type", "postgres"],
     ["bench", "set-config", "-g", "redis_cache", "redis://localhost:6379"],
     ["bench", "set-config", "-g", "redis_queue", "redis://localhost:6380"],
     ["bench", "set-config", "-g", "redis_socketio", "redis://localhost:6380"],
     ["bench", "set-config", "-g", "developer_mode", "1"]]

/-- The `for cmd in config_commands` loop of `configure_bench`
(lines 318-326): every command is attempted via `subprocess.run`; a
nonzero exit or an exception only prints a warning, so the loop never
stops early.  The outcome oracle gives each command's exit status; the
result pairs each attempted command with its outcome, in order. -/
def run_config_loop (outcome : List String → Bool) :
    List (List String) → List (List String × Bool)
  | [] => []
  | c :: rest => (c, outcome c) :: run_config_loop outcome rest

/-- The literal site-config path of `configure_bench` line 329:
`f-string bench_name + "/sites/development.localhost/site_config.json"`. -/
def site_config_path (bench_name : String) : String :=
  bench_name ++ "/sites/development.localhost/site_config.json"

/-- The test at line 338: `site_config.get('db_host') in ['mariadb', 'localhost']`. -/
def is_placeholder_host : Option JValue → Bool
  | some (JValue.str s) => s = "mariadb" || s = "localhost"
  | _ => false

/-- The three dict assignments at lines 339-341:
`db_host = '127.0.0.1'`, `db_port = 3306`, `db_socket = ''`. -/
def rewrite_site_config (sc : JObject) : JObject :=
  setField (setField (setField sc "db_host" (JValue.str "127.0.0.1"))
    "db_port" (JValue.num 3306)) "db_socket" (JValue.str "")

/-- The site-config reconciliation body (lines 333-344): load the JSON
object, and when the `db_host` test fires, produce the rewritten object
to be dumped; otherwise nothing is written. -/
def fix_site_config (sc : JObject) : Option JObject :=
  if is_placeholder_host (getField sc "db_host") then some (rewrite_site_config sc)
  else none

/-- A file write performed via `json.dump(site_config, f, indent=1)`:
target path, object written, and the `indent` argument. -/
structure JsonWrite where
  path : String
  content : JObject
  indent : Nat

/-- Result of `configure_bench`: the Python return value, the
`subprocess.run` invocations attempted by the configuration loop (paired
with their exit status), and the optional site-config file write. -/
structure ConfigureBenchResult where
  ret : Bool
  attempted : List (List String × Bool)
  written : Option JsonWrite

/-- `configure_bench(args)` (lines 284-348).  Oracles: `pathExists`
models `os.path.exists`; `outcome` the exit status of each
`subprocess.run`; `readJson` the result of `open` + `json.load` on a
path (`none` models an exception, which line 345 catches and downgrades
to a warning).  Returns `False` only when the bench directory is
missing; otherwise runs all configuration commands, then rewrites the
site config file iff it exists, parses, and has a placeholder
`db_host`. -/
def configure_bench (args : Args) (pathExists : String → Bool)
    (outcome : List String → Bool) (readJson : String → Option JObject) :
    ConfigureBenchResult :=
  let bench_name := args.bench_name
  let db_type := args.db_type
  if !pathExists bench_name then ⟨false, [], none⟩
  else
    let attempted := run_config_loop outcome (config_commands db_type)
    let p := site_config_path bench_name
    let written :=
      if pathExists p then
        match readJson p with
        | none => none
        | some sc => (fix_site_config sc).map (fun sc2 => ⟨p, sc2, 1⟩)
      else none
    ⟨true, attempted, written⟩

/-- The Homebrew fallback directories of `setup_mysql_path`
(lines 179-184). -/
def homebrew_client_dirs : List String :=
  ["/opt/homebrew/opt/mysql-client", "/usr/local/opt/mysql-client",
   "/opt/homebrew/opt/mysql", "/usr/local/opt/mysql"]

/-- Binary resolution of `setup_mysql_path` (lines 161-197): `which
mysql` first (`pathLookup`, `none` when the lookup fails), then — only
when `platform.system()` is `"Darwin"` — the first Homebrew directory
whose `bin/mysql` exists. -/
def resolve_mysql_binary (system : String) (pathLookup : Option String)
    (pathExists : String → Bool) : Option String :=
  match pathLookup with
  | some p => some p
  | none =>
    if system = "Darwin" then
      (homebrew_client_dirs.find? (fun d => pathExists (d ++ "/bin/mysql"))).map
        (fun d => d ++ "/bin/mysql")
    else none

/-- The wrapper script text written at lines 214-217. -/
def wrapper_content (mysql_binary : String) : String :=
  "#!/bin/bash\n# Wrapper for mariadb to force TCP connection instead of socket\nexec "
    ++ mysql_binary ++ " --protocol=TCP \"$@\"\n"

/-- Result of `setup_mysql_path`: the Python return value, whether the
wrapper file ended up written and chmod-ed, and whether the
wrapper-failure warning of line 225 was printed. -/
structure SetupMysqlResult where
  ret : Bool
  wrapperWritten : Bool
  warnedWrapper : Bool

/-- `setup_mysql_path()` (lines 157-232).  `writeOk` models the
`open`/`write` at lines 220-221 not raising; `chmodOk` the `os.chmod` at
line 222 not raising.  The `try`/`except` at lines 219-225 catches any
such exception and prints a warning; the function then still reaches
`return True` at line 232.  `False` is returned only at line 201, when
no mysql binary resolves. -/
def setup_mysql_path (system : String) (pathLookup : Option String)
    (pathExists : String → Bool) (writeOk chmodOk : Bool) : SetupMysqlResult :=
  match resolve_mysql_binary system pathLookup pathExists with
  | none => ⟨false, false, false⟩
  | some _ =>
    let wrapperOk := writeOk && chmodOk
    ⟨true, wrapperOk, !wrapperOk⟩

/-- The bash command string assembled at lines 261-265 of
`init_bench_if_not_exist`. -/
def init_command (args : Args) : String :=
  "bench init --skip-redis-config-generation " ++
    "--frappe-path=" ++ args.frappe_repo ++ " " ++
    "--frappe-branch=" ++ args.frappe_branch ++ " " ++
    args.bench_name

/-- Result of `init_bench_if_not_exist`: the Python return value and the
`bench init` command passed to `subprocess.run`, when one was invoked. -/
structure InitBenchResult where
  ret : Bool
  initInvoked : Option String

/-- `init_bench_if_not_exist(args)` (lines 235-281).  `pathExists`
models `os.path.exists`; `initOk` the `bench init` subprocess exiting
zero (an exception, caught at line 279, behaves as `initOk = false`).
When the bench directory exists the function returns `True` at line 239
without invoking anything.  (The best-effort `git config` calls at
lines 251-258 have their failures ignored and are not recorded.) -/
def init_bench_if_not_exist (args : Args) (pathExists : String → Bool)
    (initOk : Bool) : InitBenchResult :=
  if pathExists args.bench_name then ⟨true, none⟩
  else ⟨initOk, some (init_command args)⟩

/-- Result of `create_site`: the Python return value plus which of the
three bench subcommands (`drop-site`, `new-site`, `install-app`) were
invoked. -/
structure CreateSiteResult where
  ret : Bool
  dropInvoked : Bool
  newSiteInvoked : Bool
  installAppInvoked : Bool

/-- The site directory path computed at line 435. -/
def site_path (bench_name site_name : String) : String :=
  bench_name ++ "/sites/" ++ site_name

/-- `create_site(args, recreate)` (lines 427-513).  `pathExists` models
`os.path.exists`; `newSiteOk` and `installAppOk` the exit status of the
`bench new-site` and `bench install-app` subprocesses.  When the site
directory exists and `recreate` is false, returns `True` at line 440
without invoking anything.  Otherwise `drop-site` is invoked only when
the site directory exists (best-effort, line 450); `new-site` is always
invoked; on its success `install-app` is invoked and the function
returns `True` whatever that installation's outcome (lines 500-507);
on `new-site` failure it returns `False` (line 510). -/
def create_site (args : Args) (recreate : Bool) (pathExists : String → Bool)
    (newSiteOk installAppOk : Bool) : CreateSiteResult :=
  let siteExists := pathExists (site_path args.bench_name args.site_name)
  if siteExists && !recreate then ⟨true, false, false, false⟩
  else
    if newSiteOk then ⟨true, siteExists, true, true⟩
    else ⟨false, siteExists, true, false⟩

/-- Trace of one run of `main` (lines 598-639): which of the
mariadb-only preflight functions were invoked (`check_mysql_client`,
`setup_mysql_path`, `check_database_service`), whether the process
called `sys.exit(1)`, and whether it reached `show_usage()`. -/
structure MainTrace where
  checkedMysqlClient : Bool
  ranSetupMysql : Bool
  checkedDbService : Bool
  exitedNonzero : Bool
  reachedUsage : Bool

/-- Lines 622-639 of `main`: initialize the bench (fatal on failure),
configure it (fatal on failure, though `configure_bench` only fails when
the bench directory is missing), install ERPNext (`erpOk`; failure only
prints "continuing anyway"), then create the site (fatal on failure)
and show usage.  `pre` carries the preflight part of the trace; each
step gets its own `os.path.exists` oracle since the filesystem evolves
between the calls. -/
def main_after_preflight (args : Args) (pre : Bool × Bool × Bool)
    (pathExists1 : String → Bool) (initOk : Bool)
    (pathExists2 : String → Bool) (outcome : List String → Bool)
    (readJson : String → Option JObject) (erpOk : Bool)
    (pathExists3 : String → Bool) (newSiteOk installAppOk : Bool) : MainTrace :=
  if !(init_bench_if_not_exist args pathExists1 initOk).ret then
    ⟨pre.1, pre.2.1, pre.2.2, true, false⟩
  else if !(configure_bench args pathExists2 outcome readJson).ret then
    ⟨pre.1, pre.2.1, pre.2.2, true, false⟩
  else if (create_site args args.recreate_site pathExists3 newSiteOk installAppOk).ret then
    ⟨pre.1, pre.2.1, pre.2.2, false, true⟩
  else ⟨pre.1, pre.2.1, pre.2.2, true, false⟩

/-- `main()` (lines 598-639).  After the virtualenv check, the whole
mysql-client block (lines 610-618: `check_mysql_client`,
`setup_mysql_path`, `check_database_service`) runs only when
`args.db_type == "mariadb"`; any other db_type takes the `else` branch
at line 619, which just prints a skip message.  `uvOk`, `mysqlClientOk`
and `dbServiceOk` model the return values of `check_uv_environment`,
`check_mysql_client` and `check_database_service` under the ambient
environment. -/
def main (args : Args) (uvOk mysqlClientOk : Bool)
    (system : String) (pathLookup : Option String) (fsExists : String → Bool)
    (writeOk chmodOk : Bool) (dbServiceOk : Bool)
    (pathExists1 : String → Bool) (initOk : Bool)
    (pathExists2 : String → Bool) (outcome : List String → Bool)
    (readJson : String → Option JObject) (erpOk : Bool)
    (pathExists3 : String → Bool) (newSiteOk installAppOk : Bool) : MainTrace :=
  if !uvOk then ⟨false, false, false, true, false⟩
  else if args.db_type = "mariadb" then
    if !mysqlClientOk then ⟨true, false, false, true, false⟩
    else if !(setup_mysql_path system pathLookup fsExists writeOk chmodOk).ret then
      ⟨true, true, false, true, false⟩
    else if !dbServiceOk then ⟨true, true, true, true, false⟩
    else main_after_preflight args (true, true, true) pathExists1 initOk
      pathExists2 outcome readJson erpOk pathExists3 newSiteOk installAppOk
  else main_after_preflight args (false, false, false) pathExists1 initOk
    pathExists2 outcome readJson erpOk pathExists3 newSiteOk installAppOk

/-! ## Helper lemmas -/

theorem is_placeholder_host_iff (ov : Option JValue) :
    is_placeholder_host ov = true ↔
      (ov = some (JValue.str "mariadb") ∨ ov = some (JValue.str "localhost")) := by
  match ov with
  | none => simp [is_placeholder_host]
  | some JValue.null => simp [is_placeholder_host]
  | some (JValue.bool b) => simp [is_placeholder_host]
  | some (JValue.num n) => simp [is_placeholder_host]
  | some (JValue.str s) => simp [is_placeholder_host]
  | some (JValue.arr l) => simp [is_placeholder_host]
  | some (JValue.obj o) => simp [is_placeholder_host]

theorem run_config_loop_map_fst (outcome : List String → Bool)
    (l : List (List String)) : (run_config_loop outcome l).map Prod.fst = l := by
  induction l with
  | nil => rfl
  | cons c rest ih => simp [run_config_loop, ih]

theorem rewrite_site_config_db_host (sc : JObject) :
    getField (rewrite_site_config sc) "db_host" = some (JValue.str "127.0.0.1") := by
  unfold rewrite_site_config
  rw [getField_setField_ne _ _ _ _ (by decide), getField_setField_ne _ _ _ _ (by decide),
    getField_setField_self]

theorem rewrite_site_config_db_port (sc : JObject) :
    getField (rewrite_site_config sc) "db_port" = some (JValue.num 3306) := by
  unfold rewrite_site_config
  rw [getField_setField_ne _ _ _ _ (by decide), getField_setField_self]

theorem rewrite_site_config_db_socket (sc : JObject) :
    getField (rewrite_site_config sc) "db_socket" = some (JValue.str "") := by
  unfold rewrite_site_config
  rw [getField_setField_self]

theorem main_after_preflight_pre (args : Args) (pre : Bool × Bool × Bool)
    (pathExists1 : String → Bool) (initOk : Bool)
    (pathExists2 : String → Bool) (outcome : List String → Bool)
    (readJson : String → Option JObject) (erpOk : Bool)
    (pathExists3 : String → Bool) (newSiteOk installAppOk : Bool) :
    (main_after_preflight args pre pathExists1 initOk pathExists2 outcome readJson
        erpOk pathExists3 newSiteOk installAppOk).checkedMysqlClient = pre.1 ∧
    (main_after_preflight args pre pathExists1 initOk pathExists2 outcome readJson
        erpOk pathExists3 newSiteOk installAppOk).ranSetupMysql = pre.2.1 ∧
    (main_after_preflight args pre pathExists1 initOk pathExists2 outcome readJson
        erpOk pathExists3 newSiteOk installAppOk).checkedDbService = pre.2.2 := by
  unfold main_after_preflight
  split
  · exact ⟨rfl, rfl, rfl⟩
  · split
    · exact ⟨rfl, rfl, rfl⟩
    · split
      · exact ⟨rfl, rfl, rfl⟩
      · exact ⟨rfl, rfl, rfl⟩

/-- A concrete site configuration object: placeholder `db_host`, plus two
fields the reconciliation does not touch. -/
def sampleConfig : JObject :=
  [("db_host", JValue.str "mariadb"), ("db_name", JValue.str "_development_localhost"),
   ("encryption_key", JValue.str "abc")]

/-- A filesystem in which every queried path exists. -/
def samplePathExists : String → Bool := fun _ => true

/-- A JSON-read oracle returning `sampleConfig` for every path. -/
def sampleReadJson : String → Option JObject := fun _ => some sampleConfig

/-- An outcome oracle under which every subprocess fails. -/
def failingOutcome : List String → Bool := fun _ => false

/-! ## Claims -/

/-- C1: if the site config file parses to an object whose `db_host` is
`"mariadb"` or `"localhost"`, `configure_bench` persists (with `indent=1`,
at the fixed site-config path) the object rewritten to
`db_host = "127.0.0.1"`, `db_port = 3306`, `db_socket = ""`; for any
other `db_host` (including an absent or non-string one) no write
happens. -/
theorem configure_bench_site_config_rewrite (args : Args)
    (pathExists : String → Bool) (outcome : List String → Bool)
    (readJson : String → Option JObject) (sc : JObject)
    (hbench : pathExists args.bench_name = true)
    (hfile : pathExists (site_config_path args.bench_name) = true)
    (hread : readJson (site_config_path args.bench_name) = some sc) :
    ((getField sc "db_host" = some (JValue.str "mariadb") ∨
      getField sc "db_host" = some (JValue.str "localhost")) →
      (configure_bench args pathExists outcome readJson).written =
        some ⟨site_config_path args.bench_name, rewrite_site_config sc, 1⟩ ∧
      getField (rewrite_site_config sc) "db_host" = some (JValue.str "127.0.0.1") ∧
      getField (rewrite_site_config sc) "db_port" = some (JValue.num 3306) ∧
      getField (rewrite_site_config sc) "db_socket" = some (JValue.str "")) ∧
    (getField sc "db_host" ≠ some (JValue.str "mariadb") →
      getField sc "db_host" ≠ some (JValue.str "localhost") →
      (configure_bench args pathExists outcome readJson).written = none) := by
  have hres : (configure_bench args pathExists outcome readJson).written =
      (fix_site_config sc).map
        (fun sc2 => (⟨site_config_path args.bench_name, sc2, 1⟩ : JsonWrite)) := by
    simp [configure_bench, hbench, hfile, hread]
  rw [hres]
  constructor
  · intro hph
    have hfix : is_placeholder_host (getField sc "db_host") = true :=
      (is_placeholder_host_iff _).mpr hph
    refine ⟨?_, rewrite_site_config_db_host sc, rewrite_site_config_db_port sc,
      rewrite_site_config_db_socket sc⟩
    simp [fix_site_config, hfix]
  · intro h1 h2
    have hfix : is_placeholder_host (getField sc "db_host") = false := by
      cases hb : is_placeholder_host (getField sc "db_host") with
      | false => rfl
      | true =>
        rcases (is_placeholder_host_iff _).mp hb with h | h
        · exact absurd h h1
        · exact absurd h h2
    simp [fix_site_config, hfix]

/-- C1 witness: with the sample filesystem and `sampleConfig`
(`db_host = "mariadb"`), `configure_bench` writes the rewritten object
with indent 1 at the fixed path. -/
theorem configure_bench_site_config_rewrite_witness :
    (configure_bench defaultArgs samplePathExists failingOutcome sampleReadJson).written =
      some ⟨site_config_path defaultArgs.bench_name, rewrite_site_config sampleConfig, 1⟩ :=
  ((configure_bench_site_config_rewrite defaultArgs samplePathExists failingOutcome
    sampleReadJson sampleConfig rfl rfl rfl).1 (Or.inl rfl)).1

/-- C2: when the reconciliation rewrites a site config object, every key
other than `db_host`, `db_port` and `db_socket` keeps its previous
value. -/
theorem site_config_rewrite_frame (sc sc' : JObject) (k : String)
    (hfix : fix_site_config sc = some sc')
    (h1 : k ≠ "db_host") (h2 : k ≠ "db_port") (h3 : k ≠ "db_socket") :
    getField sc' k = getField sc k := by
  unfold fix_site_config at hfix
  split at hfix
  · have hsc : sc' = rewrite_site_config sc := (Option.some.inj hfix).symm
    subst hsc
    unfold rewrite_site_config
    rw [getField_setField_ne _ _ _ _ h3, getField_setField_ne _ _ _ _ h2,
      getField_setField_ne _ _ _ _ h1]
  · exact Option.noConfusion hfix

/-- C2 witness: rewriting `sampleConfig` preserves its
`encryption_key` field. -/
theorem site_config_rewrite_frame_witness :
    getField (rewrite_site_config sampleConfig) "encryption_key" =
      getField sampleConfig "encryption_key" :=
  site_config_rewrite_frame sampleConfig (rewrite_site_config sampleConfig)
    "encryption_key" rfl (by decide) (by decide) (by decide)

/-- C3: when the bench directory already exists,
`init_bench_if_not_exist` returns `True` and invokes no `bench init`
subcommand. -/
theorem init_bench_noop_when_exists (args : Args) (pathExists : String → Bool)
    (initOk : Bool) (h : pathExists args.bench_name = true) :
    (init_bench_if_not_exist args pathExists initOk).ret = true ∧
    (init_bench_if_not_exist args pathExists initOk).initInvoked = none := by
  unfold init_bench_if_not_exist
  rw [h]
  exact ⟨rfl, rfl⟩

/-- C3 witness: with an existing bench directory and a failing init
oracle, the function still succeeds without invoking init. -/
theorem init_bench_noop_when_exists_witness :
    (init_bench_if_not_exist defaultArgs samplePathExists false).ret = true ∧
    (init_bench_if_not_exist defaultArgs samplePathExists false).initInvoked = none :=
  init_bench_noop_when_exists defaultArgs samplePathExists false rfl

/-- C4: when the site directory already exists and `recreate` is false,
`create_site` returns `True` and invokes neither `drop-site` nor
`new-site`. -/
theorem create_site_noop_when_exists (args : Args) (pathExists : String → Bool)
    (newSiteOk installAppOk : Bool)
    (h : pathExists (site_path args.bench_name args.site_name) = true) :
    (create_site args false pathExists newSiteOk installAppOk).ret = true ∧
    (create_site args false pathExists newSiteOk installAppOk).dropInvoked = false ∧
    (create_site args false pathExists newSiteOk installAppOk).newSiteInvoked = false := by
  unfold create_site
  rw [h]
  exact ⟨rfl, rfl, rfl⟩

/-- C4 witness: with an existing site directory and both subprocesses set
to fail, `create_site` without recreation still succeeds and invokes
nothing. -/
theorem create_site_noop_when_exists_witness :
    (create_site defaultArgs false samplePathExists false false).ret = true ∧
    (create_site defaultArgs false samplePathExists false false).dropInvoked = false ∧
    (create_site defaultArgs false samplePathExists false false).newSiteInvoked = false :=
  create_site_noop_when_exists defaultArgs samplePathExists false false rfl

/-- C5: when the bench directory exists, the configuration loop of
`configure_bench` attempts every one of the N `bench set-config`
invocations in order — whatever the outcome oracle (in particular when
the k-th invocation fails, the (k+1)-th through N-th are still
attempted) — and the step returns `True`. -/
theorem configure_bench_attempts_all (args : Args) (pathExists : String → Bool)
    (outcome : List String → Bool) (readJson : String → Option JObject)
    (h : pathExists args.bench_name = true) :
    (configure_bench args pathExists outcome readJson).ret = true ∧
    (configure_bench args pathExists outcome readJson).attempted.map Prod.fst =
      config_commands args.db_type := by
  constructor
  · simp [configure_bench, h]
  · have : (configure_bench args pathExists outcome readJson).attempted =
        run_config_loop outcome (config_commands args.db_type) := by
      simp [configure_bench, h]
    rw [this, run_config_loop_map_fst]

/-- C5 witness: with every invocation failing, all eight mariadb
configuration commands are attempted and the step reports success. -/
theorem configure_bench_attempts_all_witness :
    (configure_bench defaultArgs samplePathExists failingOutcome sampleReadJson).ret = true ∧
    (configure_bench defaultArgs samplePathExists failingOutcome
        sampleReadJson).attempted.map Prod.fst = config_commands defaultArgs.db_type :=
  configure_bench_attempts_all defaultArgs samplePathExists failingOutcome sampleReadJson rfl

/-- C6: when the `new-site` subprocess succeeds, `create_site` returns
`True` even if the `install-app` subprocess fails; and whenever it
returns `False`, the `new-site` subprocess had failed. -/
theorem create_site_degraded_success (args : Args) (recreate : Bool)
    (pathExists : String → Bool) (newSiteOk installAppOk : Bool) :
    (newSiteOk = true →
      (create_site args recreate pathExists newSiteOk installAppOk).ret = true) ∧
    ((create_site args recreate pathExists newSiteOk installAppOk).ret = false →
      newSiteOk = false) := by
  cases hs : pathExists (site_path args.bench_name args.site_name) <;>
    cases recreate <;> cases newSiteOk <;> simp [create_site, hs]

/-- C6 witness: site absent, `new-site` succeeding, `install-app`
failing: `create_site` still returns `True`. -/
theorem create_site_degraded_success_witness :
    (create_site defaultArgs false (fun _ => false) true false).ret = true :=
  (create_site_degraded_success defaultArgs false (fun _ => false) true false).1 rfl

/-- C7 counterexample: with a resolved mysql binary and the wrapper
write failing, `setup_mysql_path` does not report failure — it returns
`True` (with the wrapper unwritten and the warning printed) — and a
`main` run in which only that write fails does not exit nonzero, so the
claimed fatal outcome is false at this input. -/
theorem setup_mysql_path_wrapper_failure_cex :
    (setup_mysql_path "Linux" (some "/usr/bin/mysql") (fun _ => false) false true).ret
        ≠ false ∧
    (setup_mysql_path "Linux" (some "/usr/bin/mysql") (fun _ => false) false
        true).wrapperWritten = false ∧
    (setup_mysql_path "Linux" (some "/usr/bin/mysql") (fun _ => false) false
        true).warnedWrapper = true ∧
    (main defaultArgs true true "Linux" (some "/usr/bin/mysql") (fun _ => false) false
        true true samplePathExists true samplePathExists failingOutcome sampleReadJson
        true samplePathExists true true).exitedNonzero = false := by
  refine ⟨fun h => Bool.noConfusion h, rfl, rfl, rfl⟩

/-- C7 amended: a failure while generating the database-client wrapper
script (writing the file or setting its permission bits) is tolerated:
whenever a client binary was resolved, `setup_mysql_path` still returns
`True`, printing the wrapper warning exactly when the wrapper was not
produced.  (`setup_mysql_path` returns `False` only when no binary
resolves.) -/
theorem setup_mysql_path_tolerates_wrapper_failure (system : String)
    (pathLookup : Option String) (pathExists : String → Bool)
    (writeOk chmodOk : Bool)
    (h : resolve_mysql_binary system pathLookup pathExists ≠ none) :
    (setup_mysql_path system pathLookup pathExists writeOk chmodOk).ret = true ∧
    (setup_mysql_path system pathLookup pathExists writeOk chmodOk).warnedWrapper =
      !(writeOk && chmodOk) := by
  unfold setup_mysql_path
  cases hr : resolve_mysql_binary system pathLookup pathExists with
  | none => exact absurd hr h
  | some p => exact ⟨rfl, rfl⟩

/-- C7 amended witness: binary resolved from PATH, wrapper write fails,
the function still returns `True` and warns. -/
theorem setup_mysql_path_tolerates_wrapper_failure_witness :
    (setup_mysql_path "Linux" (some "/usr/bin/mysql") (fun _ => false) false true).ret
        = true ∧
    (setup_mysql_path "Linux" (some "/usr/bin/mysql") (fun _ => false) false
        true).warnedWrapper = !(false && true) :=
  setup_mysql_path_tolerates_wrapper_failure "Linux" (some "/usr/bin/mysql")
    (fun _ => false) false true (by decide)

/-- C8: `configure_bench` consults the filesystem only at the bench
directory and at the fixed path
`<bench>/sites/development.localhost/site_config.json`: its result is
unchanged under any change of `site_name` and under any change of the
filesystem/JSON oracles away from those two paths; and the only file it
ever writes is that fixed path. -/
theorem configure_bench_reads_only_fixed_path (args : Args) (s' : String)
    (pe1 pe2 : String → Bool) (outcome : List String → Bool)
    (rj1 rj2 : String → Option JObject)
    (hb : pe1 args.bench_name = pe2 args.bench_name)
    (hp : pe1 (site_config_path args.bench_name) =
      pe2 (site_config_path args.bench_name))
    (hr : rj1 (site_config_path args.bench_name) =
      rj2 (site_config_path args.bench_name)) :
    configure_bench (setSiteName args s') pe1 outcome rj1 =
      configure_bench args pe2 outcome rj2 ∧
    ((configure_bench args pe1 outcome rj1).written = none ∨
      ∃ w, (configure_bench args pe1 outcome rj1).written = some w ∧
        w.path = site_config_path args.bench_name) := by
  constructor
  · simp only [configure_bench, setSiteName]
    rw [hb, hp, hr]
  · by_cases h1 : pe1 args.bench_name
    · by_cases h2 : pe1 (site_config_path args.bench_name)
      · cases hrj : rj1 (site_config_path args.bench_name) with
        | none => left; simp [configure_bench, h1, h2, hrj]
        | some sc =>
          cases hfix : fix_site_config sc with
          | none => left; simp [configure_bench, h1, h2, hrj, hfix]
          | some sc2 =>
            right
            exact ⟨⟨site_config_path args.bench_name, sc2, 1⟩,
              by simp [configure_bench, h1, h2, hrj, hfix], rfl⟩
      · left; simp [configure_bench, h1, h2]
    · left; simp [configure_bench, h1]

/-- C8 witness: at the sample oracles, changing the site name to
`other.localhost` leaves the `configure_bench` result unchanged. -/
theorem configure_bench_reads_only_fixed_path_witness :
    configure_bench (setSiteName defaultArgs "other.localhost") samplePathExists
        failingOutcome sampleReadJson =
      configure_bench defaultArgs samplePathExists failingOutcome sampleReadJson :=
  (configure_bench_reads_only_fixed_path defaultArgs "other.localhost" samplePathExists
    samplePathExists failingOutcome sampleReadJson sampleReadJson rfl rfl rfl).1

/-- C9: the site-config rewrite of `configure_bench` never consults the
`db_type` argument: the write it performs is identical for any two
database kinds, and on the postgres path a placeholder `db_host` is
still rewritten to `db_host = "127.0.0.1"`, `db_port = 3306`,
`db_socket = ""`. -/
theorem configure_bench_rewrite_ignores_db_type (args : Args) (d1 d2 : String)
    (pe : String → Bool) (outcome : List String → Bool)
    (rj : String → Option JObject) (sc : JObject) :
    ((configure_bench (setDbType args d1) pe outcome rj).written =
      (configure_bench (setDbType args d2) pe outcome rj).written) ∧
    (pe args.bench_name = true →
      pe (site_config_path args.bench_name) = true →
      rj (site_config_path args.bench_name) = some sc →
      is_placeholder_host (getField sc "db_host") = true →
      (configure_bench (setDbType args "postgres") pe outcome rj).written =
        some ⟨site_config_path args.bench_name, rewrite_site_config sc, 1⟩ ∧
      getField (rewrite_site_config sc) "db_host" = some (JValue.str "127.0.0.1") ∧
      getField (rewrite_site_config sc) "db_port" = some (JValue.num 3306) ∧
      getField (rewrite_site_config sc) "db_socket" = some (JValue.str "")) := by
  constructor
  · by_cases h : pe args.bench_name
    · simp [configure_bench, setDbType, h]
    · simp [configure_bench, setDbType, h]
  · intro h1 h2 h3 h4
    have hres : (configure_bench (setDbType args "postgres") pe outcome rj).written =
        (fix_site_config sc).map
          (fun sc2 => (⟨site_config_path args.bench_name, sc2, 1⟩ : JsonWrite)) := by
      simp [configure_bench, setDbType, h1, h2, h3]
    rw [hres]
    refine ⟨?_, rewrite_site_config_db_host sc, rewrite_site_config_db_port sc,
      rewrite_site_config_db_socket sc⟩
    simp [fix_site_config, h4]

/-- C9 witness: with `db_type = "postgres"` and the sample placeholder
config, the same rewrite is written as on the mariadb path. -/
theorem configure_bench_rewrite_ignores_db_type_witness :
    (configure_bench (setDbType defaultArgs "postgres") samplePathExists failingOutcome
        sampleReadJson).written =
      some ⟨site_config_path defaultArgs.bench_name, rewrite_site_config sampleConfig, 1⟩ :=
  ((configure_bench_rewrite_ignores_db_type defaultArgs "mariadb" "postgres"
    samplePathExists failingOutcome sampleReadJson sampleConfig).2 rfl rfl rfl rfl).1

/-- C10: for any `db_type` other than `"mariadb"`, `main` never invokes
`check_mysql_client`, `setup_mysql_path` or `check_database_service`,
its behaviour is independent of everything those functions would
consult (client lookup, wrapper write, database reachability), and once
the virtualenv check passes it proceeds straight to workspace
initialization. -/
theorem main_skips_db_checks_for_non_mariadb (args : Args)
    (uvOk mc1 mc2 : Bool) (sys1 sys2 : String) (pl1 pl2 : Option String)
    (fs1 fs2 : String → Bool) (w1 c1 w2 c2 db1 db2 : Bool)
    (pathExists1 : String → Bool) (initOk : Bool)
    (pathExists2 : String → Bool) (outcome : List String → Bool)
    (readJson : String → Option JObject) (erpOk : Bool)
    (pathExists3 : String → Bool) (newSiteOk installAppOk : Bool)
    (h : args.db_type ≠ "mariadb") :
    (main args uvOk mc1 sys1 pl1 fs1 w1 c1 db1 pathExists1 initOk pathExists2 outcome
        readJson erpOk pathExists3 newSiteOk installAppOk).checkedMysqlClient = false ∧
    (main args uvOk mc1 sys1 pl1 fs1 w1 c1 db1 pathExists1 initOk pathExists2 outcome
        readJson erpOk pathExists3 newSiteOk installAppOk).ranSetupMysql = false ∧
    (main args uvOk mc1 sys1 pl1 fs1 w1 c1 db1 pathExists1 initOk pathExists2 outcome
        readJson erpOk pathExists3 newSiteOk installAppOk).checkedDbService = false ∧
    main args uvOk mc1 sys1 pl1 fs1 w1 c1 db1 pathExists1 initOk pathExists2 outcome
        readJson erpOk pathExists3 newSiteOk installAppOk =
      main args uvOk mc2 sys2 pl2 fs2 w2 c2 db2 pathExists1 initOk pathExists2 outcome
        readJson erpOk pathExists3 newSiteOk installAppOk ∧
    (uvOk = true →
      main args uvOk mc1 sys1 pl1 fs1 w1 c1 db1 pathExists1 initOk pathExists2 outcome
          readJson erpOk pathExists3 newSiteOk installAppOk =
        main_after_preflight args (false, false, false) pathExists1 initOk pathExists2
          outcome readJson erpOk pathExists3 newSiteOk installAppOk) := by
  cases uvOk with
  | false =>
    refine ⟨rfl, rfl, rfl, rfl, ?_⟩
    intro hu
    exact Bool.noConfusion hu
  | true =>
    have hpre := main_after_preflight_pre args (false, false, false) pathExists1 initOk
      pathExists2 outcome readJson erpOk pathExists3 newSiteOk installAppOk
    have hmain1 : main args true mc1 sys1 pl1 fs1 w1 c1 db1 pathExists1 initOk pathExists2
        outcome readJson erpOk pathExists3 newSiteOk installAppOk =
        main_after_preflight args (false, false, false) pathExists1 initOk pathExists2
          outcome readJson erpOk pathExists3 newSiteOk installAppOk := by
      simp [main, h]
    have hmain2 : main args true mc2 sys2 pl2 fs2 w2 c2 db2 pathExists1 initOk pathExists2
        outcome readJson erpOk pathExists3 newSiteOk installAppOk =
        main_after_preflight args (false, false, false) pathExists1 initOk pathExists2
          outcome readJson erpOk pathExists3 newSiteOk installAppOk := by
      simp [main, h]
    exact ⟨by rw [hmain1]; exact hpre.1, by rw [hmain1]; exact hpre.2.1,
      by rw [hmain1]; exact hpre.2.2, by rw [hmain1, hmain2], fun _ => hmain1⟩

/-- C10 witness: with `db_type = "postgres"`, no database preflight
function is invoked, even with every database oracle set adversarially. -/
theorem main_skips_db_checks_for_non_mariadb_witness :
    (main (setDbType defaultArgs "postgres") true false "Darwin" none (fun _ => false)
        false false false samplePathExists true samplePathExists failingOutcome
        sampleReadJson true samplePathExists true true).checkedMysqlClient = false ∧
    (main (setDbType defaultArgs "postgres") true false "Darwin" none (fun _ => false)
        false false false samplePathExists true samplePathExists failingOutcome
        sampleReadJson true samplePathExists true true).ranSetupMysql = false ∧
    (main (setDbType defaultArgs "postgres") true false "Darwin" none (fun _ => false)
        false false false samplePathExists true samplePathExists failingOutcome
        sampleReadJson true samplePathExists true true).checkedDbService = false := by
  have hmain := main_skips_db_checks_for_non_mariadb (setDbType defaultArgs "postgres")
    true false true "Darwin" "Linux" none none (fun _ => false) (fun _ => true)
    false false true true false true samplePathExists true samplePathExists
    failingOutcome sampleReadJson true samplePathExists true true (by decide)
  exact ⟨hmain.1, hmain.2.1, hmain.2.2.1⟩

end Installer
